import Mathlib

/-!
Verification development for the ttnn tensor representation/conversion layer
(`src/ttnn/tensor.py`): a shallow embedding of the data model (logical +
padded shapes, layout and storage tags, buffer identities) and of the
operations `_reshape`, `_reshape_to_4D`, `to_layout`, `from_torch`,
`to_torch`, `to_device`, `from_device` and `Tensor.__getitem__`, at the
level of shape/layout/storage/dtype/buffer metadata.

External primitives of the repository that are not part of the source file
(the `tt_lib` tensor methods and kernels, the host torch array library) are
modelled from the specification's stated contracts; each such definition
carries a doc comment starting with "Modelled from the spec".

General recursion between `to_layout`, `_reshape` and `from_torch` is
embedded with an explicit fuel parameter; the exported operations fix a
fuel that is never exhausted on the traces proved below.  Freshly allocated
buffers are numbered by an allocation counter threaded through every
operation: an operation takes the next free buffer id and returns the new
one, so buffer disjointness is expressible.
-/

namespace Ttnn

/-! ## Data model -/

inductive DataType
  | uint32
  | float32
  | bfloat16
  | bfloat8_b
deriving DecidableEq, Repr

inductive Layout
  | ROW_MAJOR
  | TILE
deriving DecidableEq, Repr

inductive TensorMemoryLayout
  | INTERLEAVED
deriving DecidableEq, Repr

inductive BufferType
  | DRAM
  | L1
deriving DecidableEq, Repr

structure MemoryConfig where
  memory_layout : TensorMemoryLayout
  buffer_type : BufferType
deriving DecidableEq, Repr

def DRAM_MEMORY_CONFIG : MemoryConfig := ⟨.INTERLEAVED, .DRAM⟩

def L1_MEMORY_CONFIG : MemoryConfig := ⟨.INTERLEAVED, .L1⟩

/-- Storage location of a tensor: host memory, or a device (identified by id)
together with the memory config the buffer was allocated with. -/
inductive Storage
  | host
  | device (deviceId : Nat) (memoryConfig : MemoryConfig)
deriving DecidableEq, Repr

/-- A ttnn shape: the logical (user-visible) dims paired with the padded
(physically stored) dims.  `Shape(t)` in the source with a single tuple
argument sets both to the tuple; `Shape(s, full)` sets them separately. -/
structure Shape where
  logical : List Int
  padded : List Int
deriving DecidableEq, Repr

/-- The tensor handle: dtype, layout tag, storage location, shape and the
identity of the underlying buffer. -/
structure TtTensor where
  dtype : DataType
  layout : Layout
  storage : Storage
  shape : Shape
  bufferId : Nat
deriving DecidableEq, Repr

/-- The host array collaborator (`torch.Tensor`), reduced to the metadata
the operations read: its dense shape and element type. -/
structure TorchTensor where
  shape : List Int
  dtype : DataType
deriving DecidableEq, Repr

/-- Errors: `runtime` mirrors the Python `RuntimeError`s raised by the source
(plus Python built-in errors raised by failing unpacking/indexing);
`storageErr` is the StorageError of spec-modelled storage primitives;
`torchErr` is an error raised inside the external torch library;
`outOfFuel` marks exhaustion of the recursion fuel (never reached at the
exported fuel on the traces below). -/
inductive Err
  | runtime (msg : String)
  | storageErr (msg : String)
  | torchErr (msg : String)
  | outOfFuel
deriving DecidableEq, Repr

/-! ## Shape helpers -/

def TILE_SIZE : Int := 32

/-- Python `list(l)[-2:]`. -/
def lastTwo (l : List Int) : List Int := l.drop (l.length - 2)

/-- Python `list(l)[:-2]`. -/
def dropLastTwo (l : List Int) : List Int := l.dropLast.dropLast

/-- Python `math.prod`. -/
def volume (l : List Int) : Int := l.prod

/-- Python `list.index(-1)` as an option (the source's `shape.index(-1)`);
`none` corresponds to the `ValueError` Python raises when absent. -/
def indexOfNeg1 : List Int → Option Nat
  | [] => none
  | x :: xs => if x = -1 then some 0 else (indexOfNeg1 xs).map (· + 1)

def isOnDevice (t : TtTensor) : Bool :=
  match t.storage with
  | .device _ _ => true
  | .host => false

def deviceIdOf (t : TtTensor) : Nat :=
  match t.storage with
  | .device d _ => d
  | .host => 0

/-- `Tensor.is_contiguous` (src lines 79-83): row-major and the physical
shape equals the unpadded shape. -/
def is_contiguous (t : TtTensor) : Bool :=
  if t.layout = .ROW_MAJOR then decide (t.shape.padded = t.shape.logical) else false

/-! ## Modelled external primitives (repository code outside `src/`) -/

/-- Modelled from the spec (§4.3 step 3): the metadata reshape
`ttl_tensor.reshape(shape.value)` wrapped by `ttnn_reshape` — a pure
reinterpretation: the buffer is reused and only the shape metadata changes. -/
def ttlReshape (t : TtTensor) (s : Shape) : TtTensor := { t with shape := s }

/-- Modelled from the spec (§4.3 step 5): the native device reshape primitive
`ttl.tensor.reshape(ttl_tensor, w, z, y, x)` — rebuilds the device buffer
under the four given dims (a data-moving operation, fresh buffer). -/
def ttlDeviceReshape (t : TtTensor) (w z y x : Int) (n : Nat) : TtTensor × Nat :=
  ({ t with shape := ⟨[w, z, y, x], [w, z, y, x]⟩, bufferId := n }, n + 1)

/-- Modelled from the spec (§4.2 row 1): `ttl.tensor.untilize` — native
device untile-in-place; row-major result, same shape, same memory config. -/
def ttlUntilize (t : TtTensor) (n : Nat) : TtTensor × Nat :=
  ({ t with layout := .ROW_MAJOR, bufferId := n }, n + 1)

/-- Modelled from the spec (§4.2 row 1): `ttl.tensor.tilize` with
`output_mem_config` equal to the input's — native device tile-in-place;
tiled result, same shape, same memory config. -/
def ttlTilize (t : TtTensor) (n : Nat) : TtTensor × Nat :=
  ({ t with layout := .TILE, bufferId := n }, n + 1)

/-- Modelled from the spec (§4.2 row 5): `ttl.tensor.untilize_with_unpadding`
with start indices `(0,0,0,0)` and inclusive end indices — the native
untile-with-unpadding device primitive; output dim `i` is `end_i + 1`,
row-major result with trivial padding, fresh buffer. -/
def ttlUntilizeWithUnpadding (t : TtTensor) (endIdx : List Int) (n : Nat) : TtTensor × Nat :=
  let dims := endIdx.map (· + 1)
  ({ t with layout := .ROW_MAJOR, shape := ⟨dims, dims⟩, bufferId := n }, n + 1)

/-- Modelled from the spec (§4.2 row 3): `ttl.tensor.tilize_with_val_padding`
— native tile-with-padding device primitive; the result's shape is the given
padded output shape, tiled, fresh buffer. -/
def ttlTilizeWithValPadding (t : TtTensor) (paddedShape : List Int) (n : Nat) : TtTensor × Nat :=
  ({ t with layout := .TILE, shape := ⟨paddedShape, paddedShape⟩, bufferId := n }, n + 1)

/-- Modelled from the spec (§4.2 row 4): host `ttl_tensor.pad` — zero-fill
pad of the host buffer to the given padded shape; the result's shape is that
padded shape, fresh buffer. -/
def ttlPad (t : TtTensor) (paddedShape : List Int) (n : Nat) : TtTensor × Nat :=
  ({ t with shape := ⟨paddedShape, paddedShape⟩, bufferId := n }, n + 1)

/-- Modelled from the spec (§4.2 row 6): host `ttl_tensor.unpad_from_tile`
— strips the padding down to the given logical shape; trivially padded
result, same layout, fresh buffer. -/
def ttlUnpadFromTile (t : TtTensor) (logicalShape : List Int) (n : Nat) : TtTensor × Nat :=
  ({ t with shape := ⟨logicalShape, logicalShape⟩, bufferId := n }, n + 1)

/-- Modelled from the spec (§4.2 row 2): host `ttl_tensor.to(layout)` —
converts the host buffer to the target layout keeping the shape; a no-op
when the tensor is already in the target layout. -/
def ttlToLayout (t : TtTensor) (layout : Layout) (n : Nat) : TtTensor × Nat :=
  if t.layout = layout then (t, n)
  else ({ t with layout := layout, bufferId := n }, n + 1)

/-- Modelled from the spec (§4.4 toDevice): `ttl_tensor.to(device, mem_config)`
— copies the buffer to the named device pool; StorageError if the tensor is
already on device. -/
def ttlToDevice (t : TtTensor) (d : Nat) (memoryConfig : MemoryConfig) (n : Nat) :
    Except Err (TtTensor × Nat) :=
  match t.storage with
  | .device _ _ => .error (.storageErr "Tensor is already on device!")
  | .host => .ok ({ t with storage := .device d memoryConfig, bufferId := n }, n + 1)

/-- Modelled from the spec (§4.4 fromDevice): `ttl_tensor.cpu()` — copies the
buffer to host; StorageError ("no-op error") if the tensor is already on
host. -/
def ttlCpu (t : TtTensor) (n : Nat) : Except Err (TtTensor × Nat) :=
  match t.storage with
  | .host => .error (.storageErr "Tensor is already on host!")
  | .device _ _ => .ok ({ t with storage := .host, bufferId := n }, n + 1)

/-- Modelled from the spec (§6): `ttl.tensor.Tensor(torch_tensor, dtype)` —
wraps a dense row-major host array into a trivially padded host tensor with
a fresh buffer; a `none` dtype is inferred from the array's element type. -/
def ttlFromTorch (tt : TorchTensor) (dtype : Option DataType) (n : Nat) : TtTensor × Nat :=
  ({ dtype := dtype.getD tt.dtype, layout := .ROW_MAJOR, storage := .host,
     shape := ⟨tt.shape, tt.shape⟩, bufferId := n }, n + 1)

/-- Modelled from the spec (§6): `ttl_tensor.to_torch()` on a host row-major
tensor — produces the dense host array of the physically stored (padded)
shape with the tensor's element type. -/
def ttlToTorch (t : TtTensor) : TorchTensor := ⟨t.shape.padded, t.dtype⟩

/-- Modelled from the spec (§6, host array collaborator): `torch.reshape`
followed by `.contiguous().clone()` — succeeds iff the volume is conserved,
producing a fresh array of the requested shape. -/
def torchReshape (tt : TorchTensor) (shape : List Int) : Except Err TorchTensor :=
  if volume tt.shape = volume shape then .ok ⟨shape, tt.dtype⟩
  else .error (.torchErr "shape is invalid for input size")

/-- Length of the Python range `slice(lo, hi)` applied to a dim of size `d`
(non-negative bounds). -/
def sliceLen (d lo hi : Int) : Int := max 0 (min hi d - min lo d)

/-- Shape of `tensor[slices]` for a list of ranges applied to the leading
dims; remaining dims are unchanged. -/
def sliceShape : List (Int × Int) → List Int → List Int
  | [], dims => dims
  | _ :: _, [] => []
  | (lo, hi) :: rest, d :: dims => sliceLen d lo hi :: sliceShape rest dims

/-- Modelled from the spec (§4.5): `torch_getitem` — `tensor[slices].clone()`:
a new, independent host array with the sliced shape and unchanged dtype. -/
def torchGetitem (tt : TorchTensor) (slices : List (Int × Int)) : TorchTensor :=
  ⟨sliceShape slices tt.shape, tt.dtype⟩

/-! ## Source operations without internal recursion -/

/-- `from_device` (src lines 449-472): `impl` copies to host via the ttl
`cpu()` primitive. -/
def from_device (t : TtTensor) (n : Nat) : Except Err (TtTensor × Nat) := ttlCpu t n

/-- `to_device` (src lines 418-446): `impl` copies to the device via
`ttl_tensor.to(device, memory_config)`. -/
def to_device (t : TtTensor) (d : Nat) (memory_config : MemoryConfig) (n : Nat) :
    Except Err (TtTensor × Nat) := ttlToDevice t d memory_config n

/-- `requires_padding_change` (src lines 202-214). -/
def requires_padding_change (layout : Layout) (shape : Shape) : Bool :=
  let intended_shape := lastTwo shape.logical
  let padded_shape := lastTwo shape.padded
  if layout = .ROW_MAJOR ∧ intended_shape ≠ padded_shape then true
  else if layout = .TILE ∧ intended_shape = padded_shape ∧
      (intended_shape.length < 2 ∨
        ¬ (intended_shape.getLastD 0) % TILE_SIZE = 0 ∨
        ¬ (intended_shape.dropLast.getLastD 0) % TILE_SIZE = 0) then true
  else false

/-- Wildcard resolution of a tuple argument to `_reshape` (src lines 91-101):
at most one `-1`, replaced by `volume // (-new_volume)` (Python floor
division) when the tuple's product is negative. -/
def resolveReshapeTuple (vol : Int) (tup : List Int) : Except Err (List Int) :=
  if ¬ tup.count (-1) ≤ 1 then
    .error (.runtime "Shape cannot have more than 1 elements that is set to -1!")
  else
    let new_volume := volume tup
    if new_volume < 0 then
      match indexOfNeg1 tup with
      | some i => .ok (tup.set i (Int.fdiv vol (-new_volume)))
      | none => .error (.runtime "ValueError: -1 is not in tuple")
    else .ok tup

/-- The argument of `_reshape`: a Python tuple (possibly holding a `-1`
wildcard) or an already-built `Shape`. -/
inductive ReshapeArg
  | tup (dims : List Int)
  | shp (s : Shape)
deriving DecidableEq, Repr

/-! ## The mutually recursive operations

`_reshape` (src 90-162, split here into its fast paths, the
tile-aligned/slow dispatch of lines 124-127 and the general path of lines
129-162), `_reshape_to_4D` (166-176), `to_layout` (179-332, with
`unpad_with_pytorch` of lines 222-235), `from_torch` (335-378) and
`to_torch` (381-415). -/

mutual

/-- `to_layout` (src lines 179-332). -/
def to_layoutF : Nat → TtTensor → Layout → Nat → Except Err (TtTensor × Nat)
  | 0, _, _, _ => .error .outOfFuel
  | fuel + 1, tensor, layout, n =>
    if requires_padding_change layout tensor.shape = false ∧ tensor.layout = layout then
      .ok (tensor, n)
    else
      let is_on_device := isOnDevice tensor
      let intended_shape := tensor.shape.logical
      if tensor.layout ≠ layout ∧ requires_padding_change layout tensor.shape = false then
        if is_on_device then
          match layout with
          | .ROW_MAJOR => .ok (ttlUntilize tensor n)
          | .TILE => .ok (ttlTilize tensor n)
        else
          .ok (ttlToLayout tensor layout n)
      else
        match layout with
        | .ROW_MAJOR =>
          if is_on_device then
            match tensor.shape.logical.getLast? with
            | none => .error (.runtime "ValueError: not enough values to unpack")
            | some width =>
              if tensor.layout ≠ layout ∧ width % 2 = 0 then do
                let (t4, n1) ← _reshape_to_4DF fuel tensor n
                let intended_4D_shape := t4.shape.logical.map (fun x => x - 1)
                let (out, n2) := ttlUntilizeWithUnpadding t4 intended_4D_shape n1
                _reshapeF fuel out (.tup intended_shape) n2
              else do
                let (t1, n1) ← from_device tensor n
                let (t2, n2) :=
                  if tensor.layout ≠ layout then ttlToLayout t1 layout n1 else (t1, n1)
                if dropLastTwo t2.shape.logical = dropLastTwo t2.shape.padded then do
                  let (t4, n3) ← _reshape_to_4DF fuel t2 n2
                  let (t5, n4) :=
                    if tensor.layout = layout then (t4, n3) else ttlToLayout t4 layout n3
                  let (out, n5) := ttlUnpadFromTile t5 t5.shape.logical n4
                  _reshapeF fuel out (.tup intended_shape) n5
                else do
                  let (out, n3) ← unpad_with_pytorchF fuel t2 n2
                  _reshapeF fuel out (.tup intended_shape) n3
          else
            if requires_padding_change layout tensor.shape = true then do
              let (t4, n1) ← _reshape_to_4DF fuel tensor n
              let (t5, n2) :=
                if tensor.layout = layout then (t4, n1) else ttlToLayout t4 layout n1
              let (out, n3) := ttlUnpadFromTile t5 t5.shape.logical n2
              _reshapeF fuel out (.tup intended_shape) n3
            else if tensor.layout ≠ layout then do
              let (out, n1) := ttlToLayout tensor layout n
              _reshapeF fuel out (.tup intended_shape) n1
            else
              .error (.runtime "NameError: output_tensor")
        | .TILE =>
          match tensor.shape.logical.getLast? with
          | none => .error (.runtime "ValueError: not enough values to unpack")
          | some width =>
            let height :=
              if 1 < tensor.shape.logical.length then
                tensor.shape.logical.dropLast.getLastD 1
              else 1
            let original_batch_sizes :=
              if 1 < tensor.shape.logical.length then dropLastTwo tensor.shape.logical
              else tensor.shape.logical.dropLast
            let pad_h := (TILE_SIZE - height % TILE_SIZE) % TILE_SIZE
            let pad_w := (TILE_SIZE - width % TILE_SIZE) % TILE_SIZE
            let padded_height := height + pad_h
            let padded_width := width + pad_w
            do
              let (t4, n1) ← _reshape_to_4DF fuel tensor n
              let batch_sizes := dropLastTwo t4.shape.logical
              let (t5, n2) :=
                if t4.layout = .ROW_MAJOR ∧ is_on_device then
                  ttlTilizeWithValPadding t4 (batch_sizes ++ [padded_height, padded_width]) n1
                else if t4.layout = .ROW_MAJOR then
                  let (tp, np2) := ttlPad t4 (batch_sizes ++ [padded_height, padded_width]) n1
                  ttlToLayout tp layout np2
                else (t4, n1)
              _reshapeF fuel t5
                (.shp ⟨original_batch_sizes ++ [height, width],
                       original_batch_sizes ++ [padded_height, padded_width]⟩) n2
termination_by structural fuel _ _ _ => fuel

/-- `unpad_with_pytorch` (src lines 222-235): convert to row-major on host,
read back as a torch array, trim every dim where the padded extent exceeds
the logical one, and re-wrap via `from_torch` (dtype inferred). -/
def unpad_with_pytorchF : Nat → TtTensor → Nat → Except Err (TtTensor × Nat)
  | 0, _, _ => .error .outOfFuel
  | fuel + 1, ttnn_tensor, n =>
    let current_shape := ttnn_tensor.shape.padded
    let desired_shape := ttnn_tensor.shape.logical
    let (t1, n1) :=
      if ttnn_tensor.layout ≠ .ROW_MAJOR then ttlToLayout ttnn_tensor .ROW_MAJOR n
      else (ttnn_tensor, n)
    let tt := ttlToTorch t1
    let trimmed := List.zipWith (fun c d => if c > d then d else c) current_shape desired_shape
    from_torchF fuel ⟨trimmed, tt.dtype⟩ none (some .ROW_MAJOR) none none n1
termination_by structural fuel _ _ => fuel

/-- `_reshape` (src lines 90-122): wildcard resolution on tuple arguments,
the already-equal fast path and the reinterpretation fast path of contiguous
tensors; other cases continue in `_reshape_slowF`. -/
def _reshapeF : Nat → TtTensor → ReshapeArg → Nat → Except Err (TtTensor × Nat)
  | 0, _, _, _ => .error .outOfFuel
  | fuel + 1, input_tensor, arg, n => do
    let shape ←
      match arg with
      | .tup tup => do
          let resolved ← resolveReshapeTuple (volume input_tensor.shape.logical) tup
          pure (Shape.mk resolved resolved)
      | .shp s => pure s
    if input_tensor.shape = shape ∧ input_tensor.shape.logical = shape.logical then
      .ok (input_tensor, n)
    else if is_contiguous input_tensor then
      if isOnDevice input_tensor then
        match input_tensor.shape.logical.getLast?, shape.logical.getLast? with
        | some a, some b =>
          if a = b then .ok (ttlReshape input_tensor shape, n)
          else _reshape_slowF fuel input_tensor shape n
        | _, _ => .error (.runtime "IndexError: tuple index out of range")
      else .ok (ttlReshape input_tensor shape, n)
    else _reshape_slowF fuel input_tensor shape n
termination_by structural fuel _ _ _ => fuel

/-- `_reshape`, continued (src lines 124-127): the tile-aligned
reinterpretation fast path. -/
def _reshape_slowF : Nat → TtTensor → Shape → Nat → Except Err (TtTensor × Nat)
  | 0, _, _, _ => .error .outOfFuel
  | fuel + 1, input_tensor, shape, n =>
    if input_tensor.layout = .TILE then
      if 2 ≤ shape.padded.length then
        let new_width := shape.padded.getLastD 0
        let new_height := shape.padded.dropLast.getLastD 0
        if new_height % TILE_SIZE = 0 ∧ new_width % TILE_SIZE = 0 then
          .ok (ttlReshape input_tensor shape, n)
        else _reshape_genF fuel input_tensor shape n
      else .error (.runtime "ValueError: not enough values to unpack")
    else _reshape_genF fuel input_tensor shape n
termination_by structural fuel _ _ _ => fuel

/-- `_reshape`, continued (src lines 129-162): the 4D native device reshape
path, and the general host round-trip through torch. -/
def _reshape_genF : Nat → TtTensor → Shape → Nat → Except Err (TtTensor × Nat)
  | 0, _, _, _ => .error .outOfFuel
  | fuel + 1, input_tensor, shape, n =>
    if isOnDevice input_tensor ∧ input_tensor.shape.logical.length = 4 ∧
        shape.logical.length = 4 then
      match shape.logical with
      | [w, z, y, x] =>
        let (t1, n1) := ttlDeviceReshape input_tensor w z y x n
        .ok (ttlReshape t1 shape, n1)
      | _ => .error (.runtime "ValueError: not enough values to unpack")
    else
      if isOnDevice input_tensor then do
        let d := deviceIdOf input_tensor
        let (t1, n1) ← from_device input_tensor n
        let (t2, n2) := ttlToLayout t1 .ROW_MAJOR n1
        let (tt, n3) ← to_torchF fuel t2 n2
        let tt2 ← torchReshape tt shape.padded
        let (t3, n4) ← from_torchF fuel tt2 (some input_tensor.dtype) (some .ROW_MAJOR) none none n3
        let (t4, n5) ← to_device t3 d DRAM_MEMORY_CONFIG n4
        .ok (ttlReshape t4 shape, n5)
      else do
        let (t2, n2) := ttlToLayout input_tensor .ROW_MAJOR n
        let (tt, n3) ← to_torchF fuel t2 n2
        let tt2 ← torchReshape tt shape.padded
        let (t3, n4) ← from_torchF fuel tt2 (some input_tensor.dtype) (some .ROW_MAJOR) none none n3
        .ok (ttlReshape t3 shape, n4)
termination_by structural fuel _ _ _ => fuel

/-- `_reshape_to_4D` (src lines 166-176). -/
def _reshape_to_4DF : Nat → TtTensor → Nat → Except Err (TtTensor × Nat)
  | 0, _, _ => .error .outOfFuel
  | fuel + 1, tensor, n =>
    if tensor.shape.logical.length = 4 then .ok (tensor, n)
    else if 4 < tensor.shape.logical.length then
      .error (.runtime "Tensor cannot have more than 4 dimensions!")
    else
      let num_missing_dims := 4 - tensor.shape.logical.length
      let shape := List.replicate num_missing_dims (1 : Int) ++ tensor.shape.logical
      let full_shape := List.replicate num_missing_dims (1 : Int) ++ tensor.shape.padded
      _reshapeF fuel tensor (.shp ⟨shape, full_shape⟩) n
termination_by structural fuel _ _ => fuel

/-- `from_torch` (src lines 335-378). -/
def from_torchF : Nat → TorchTensor → Option DataType → Option Layout → Option Nat →
    Option MemoryConfig → Nat → Except Err (TtTensor × Nat)
  | 0, _, _, _, _, _, _ => .error .outOfFuel
  | fuel + 1, tt, dtype, layout, device, memory_config, n =>
    if memory_config.isSome ∧ device.isNone then
      .error (.runtime "device must be specified when memory_config is specified")
    else do
      let (t1, n1) := ttlFromTorch tt dtype n
      let (t2, n2) ←
        match layout with
        | some l => to_layoutF fuel t1 l n1
        | none => pure (t1, n1)
      match device with
      | some d => to_device t2 d (memory_config.getD DRAM_MEMORY_CONFIG) n2
      | none => pure (t2, n2)
termination_by structural fuel _ _ _ _ _ _ => fuel

/-- `to_torch` (src lines 381-415). -/
def to_torchF : Nat → TtTensor → Nat → Except Err (TorchTensor × Nat)
  | 0, _, _ => .error .outOfFuel
  | fuel + 1, tensor, n => do
    let (t1, n1) ← if isOnDevice tensor then from_device tensor n else pure (tensor, n)
    let (t2, n2) ←
      if t1.layout ≠ .ROW_MAJOR then to_layoutF fuel t1 .ROW_MAJOR n1 else pure (t1, n1)
    if isOnDevice t2 then
      .error (.runtime "ttnn.Tensor cannot be on device when converting to torch.Tensor!")
    else if t2.layout ≠ .ROW_MAJOR then
      .error (.runtime "ttnn.Tensor has to be in ROW_MAJOR Layout to be converted to torch.Tensor")
    else .ok (ttlToTorch t2, n2)
termination_by structural fuel _ _ => fuel

end

/-- `Tensor.__getitem__` (src lines 52-77). -/
def getitemF (fuel : Nat) (self : TtTensor) (slices : List (Int × Int)) (n : Nat) :
    Except Err (TtTensor × Nat) :=
  if self.layout ≠ .ROW_MAJOR then
    .error (.runtime "Tensor must be in ROW_MAJOR layout to use slicing!")
  else if isOnDevice self then do
    let d := deviceIdOf self
    let (t1, n1) ← from_device self n
    let (tt, n2) ← to_torchF fuel t1 n1
    let tt2 := torchGetitem tt slices
    let (t2, n3) ← from_torchF fuel tt2 (some self.dtype) (some .ROW_MAJOR) none none n2
    to_device t2 d DRAM_MEMORY_CONFIG n3
  else do
    let (tt, n2) ← to_torchF fuel self n
    let tt2 := torchGetitem tt slices
    from_torchF fuel tt2 (some self.dtype) (some .ROW_MAJOR) none none n2

/-! ## Exported operations at a fixed, never-exhausted fuel -/

def FUEL : Nat := 64

def to_layout (t : TtTensor) (layout : Layout) (n : Nat) : Except Err (TtTensor × Nat) :=
  to_layoutF FUEL t layout n

def _reshape (t : TtTensor) (arg : ReshapeArg) (n : Nat) : Except Err (TtTensor × Nat) :=
  _reshapeF FUEL t arg n

def _reshape_to_4D (t : TtTensor) (n : Nat) : Except Err (TtTensor × Nat) :=
  _reshape_to_4DF FUEL t n

def from_torch (tt : TorchTensor) (dtype : Option DataType) (layout : Option Layout)
    (device : Option Nat) (memory_config : Option MemoryConfig) (n : Nat) :
    Except Err (TtTensor × Nat) :=
  from_torchF FUEL tt dtype layout device memory_config n

def to_torch (t : TtTensor) (n : Nat) : Except Err (TorchTensor × Nat) :=
  to_torchF FUEL t n

def getitem (t : TtTensor) (slices : List (Int × Int)) (n : Nat) :
    Except Err (TtTensor × Nat) :=
  getitemF FUEL t slices n

/-! ## Basic lemmas about the monadic plumbing and shape arithmetic -/

theorem except_bind_ok {α β : Type} (a : α) (f : α → Except Err β) :
    ((Except.ok a : Except Err α) >>= f) = f a := rfl

theorem except_bind_error {α β : Type} (e : Err) (f : α → Except Err β) :
    ((Except.error e : Except Err α) >>= f) = Except.error e := rfl

theorem except_pure_eq_ok {α : Type} (a : α) : (pure a : Except Err α) = Except.ok a := rfl

theorem ttlReshape_self (t : TtTensor) : ttlReshape t t.shape = t := rfl

/-- The tile round-up `dim + (TILE_SIZE - dim mod TILE_SIZE) mod TILE_SIZE`
computed by `to_layout`'s tiling branch (src lines 306-309). -/
def roundUp32 (d : Int) : Int := d + (TILE_SIZE - d % TILE_SIZE) % TILE_SIZE

theorem roundUp32_dvd (d : Int) : 32 ∣ roundUp32 d := by
  unfold roundUp32 TILE_SIZE
  omega

theorem roundUp32_le (d : Int) : d ≤ roundUp32 d := by
  unfold roundUp32 TILE_SIZE
  omega

theorem roundUp32_least (d k : Int) (hdvd : 32 ∣ k) (hle : d ≤ k) : roundUp32 d ≤ k := by
  unfold roundUp32 TILE_SIZE
  omega

theorem roundUp32_eq_self (d : Int) (h : d % TILE_SIZE = 0) : roundUp32 d = d := by
  unfold roundUp32 TILE_SIZE at *
  omega

theorem roundUp32_emod (d : Int) : (roundUp32 d) % TILE_SIZE = 0 := by
  unfold roundUp32 TILE_SIZE
  omega

theorem prod_nonneg_of_nonneg (l : List Int) (h : ∀ x ∈ l, 0 ≤ x) : 0 ≤ l.prod := by
  induction l with
  | nil => simp
  | cons a t ih =>
    rw [List.prod_cons]
    exact mul_nonneg (h a (by simp)) (ih (fun x hx => h x (by simp [hx])))

theorem prod_pos_of_pos (l : List Int) (h : ∀ x ∈ l, 0 < x) : 0 < l.prod := by
  induction l with
  | nil => simp
  | cons a t ih =>
    rw [List.prod_cons]
    exact mul_pos (h a (by simp)) (ih (fun x hx => h x (by simp [hx])))

theorem indexOfNeg1_append (pre post : List Int) (hpre : ∀ x ∈ pre, x ≠ -1) :
    indexOfNeg1 (pre ++ -1 :: post) = some pre.length := by
  induction pre with
  | nil => simp [indexOfNeg1]
  | cons a t ih =>
    have ha : a ≠ -1 := hpre a (by simp)
    simp [indexOfNeg1, ha, ih (fun x hx => hpre x (by simp [hx]))]

theorem set_append_len (pre post : List Int) (a v : Int) :
    (pre ++ a :: post).set pre.length v = pre ++ v :: post := by
  induction pre with
  | nil => simp
  | cons b t ih => simp [List.set, ih]

/-- Wildcard-free tuples resolve to themselves (src lines 92-101: no `-1`
present and non-negative product means no rewriting happens). -/
theorem resolveReshapeTuple_nonneg (vol : Int) (tup : List Int)
    (h : ∀ x ∈ tup, 0 ≤ x) : resolveReshapeTuple vol tup = .ok tup := by
  have hcount : tup.count (-1) = 0 := by
    refine List.count_eq_zero.mpr ?_
    intro hmem
    have := h _ hmem
    omega
  have hprod : 0 ≤ volume tup := prod_nonneg_of_nonneg tup h
  unfold resolveReshapeTuple
  simp only [hcount]
  rw [if_neg (by omega), if_neg (by omega)]

/-- A tuple with exactly one `-1` wildcard, the other entries positive,
resolves by floor division of the tensor volume by the product of the other
entries (src lines 96-101).  No divisibility check is performed. -/
theorem resolveReshapeTuple_wildcard (vol : Int) (pre post : List Int)
    (h : ∀ x ∈ pre ++ post, 0 < x) :
    resolveReshapeTuple vol (pre ++ -1 :: post) =
      .ok (pre ++ Int.fdiv vol ((pre ++ post).prod) :: post) := by
  have hpre : ∀ x ∈ pre, 0 < x := fun x hx => h x (by simp [hx])
  have hpost : ∀ x ∈ post, 0 < x := fun x hx => h x (by simp [hx])
  have hppos : 0 < pre.prod := prod_pos_of_pos pre hpre
  have hqpos : 0 < post.prod := prod_pos_of_pos post hpost
  have hcount : (pre ++ -1 :: post).count (-1) = 1 := by
    rw [List.count_append, List.count_cons_self]
    have h1 : pre.count (-1) = 0 := by
      refine List.count_eq_zero.mpr ?_
      intro hmem
      have := hpre _ hmem
      omega
    have h2 : post.count (-1) = 0 := by
      refine List.count_eq_zero.mpr ?_
      intro hmem
      have := hpost _ hmem
      omega
    omega
  have hvol : volume (pre ++ -1 :: post) = -(pre.prod * post.prod) := by
    unfold volume
    rw [List.prod_append, List.prod_cons]
    ring
  unfold resolveReshapeTuple
  simp only [hcount, hvol]
  rw [if_neg (by omega), if_pos (by nlinarith),
    indexOfNeg1_append pre post (fun x hx => by have := hpre x hx; omega)]
  have : -(-(pre.prod * post.prod)) = (pre ++ post).prod := by
    rw [List.prod_append]; ring
  simp only [this, set_append_len]

/-! ## Fast-path evaluation lemmas for the operations -/

theorem rpc_rm_trivial (s : List Int) :
    requires_padding_change .ROW_MAJOR ⟨s, s⟩ = false := by
  simp [requires_padding_change]

/-- The no-op fast path of `to_layout` (src lines 216-219). -/
theorem to_layoutF_noop (f : Nat) (t : TtTensor) (layout : Layout) (n : Nat)
    (h1 : requires_padding_change layout t.shape = false) (h2 : t.layout = layout) :
    to_layoutF (f + 1) t layout n = .ok (t, n) := by
  simp [to_layoutF, h1, h2]

/-- `from_torch` with the default row-major layout and no target device
produces a trivially padded row-major host tensor in a fresh buffer. -/
theorem from_torchF_rm (f : Nat) (tt : TorchTensor) (dtype : Option DataType) (n : Nat) :
    from_torchF (f + 2) tt dtype (some .ROW_MAJOR) none none n =
      .ok (⟨dtype.getD tt.dtype, .ROW_MAJOR, .host, ⟨tt.shape, tt.shape⟩, n⟩, n + 1) := by
  show from_torchF (f + 1 + 1) tt dtype (some .ROW_MAJOR) none none n = _
  simp only [from_torchF, ttlFromTorch]
  rw [if_neg (by simp)]
  rw [to_layoutF_noop f _ .ROW_MAJOR (n + 1) (rpc_rm_trivial tt.shape) rfl]
  rfl

/-- `to_torch` on a trivially padded row-major host tensor reads back the
logical shape with the tensor's dtype. -/
theorem to_torchF_host_rm (f : Nat) (t : TtTensor) (n : Nat)
    (hs : t.storage = .host) (hl : t.layout = .ROW_MAJOR)
    (hp : t.shape.padded = t.shape.logical) :
    to_torchF (f + 1) t n = .ok (⟨t.shape.logical, t.dtype⟩, n) := by
  simp [to_torchF, isOnDevice, hs, hl, ttlToTorch, hp]

/-- The contiguous-host reinterpretation fast path of `_reshape`
(src lines 116-122) for a `Shape` argument. -/
theorem _reshapeF_shp_host (f : Nat) (t : TtTensor) (s : Shape) (n : Nat)
    (hc : is_contiguous t = true) (hh : t.storage = .host) :
    _reshapeF (f + 1) t (.shp s) n = .ok (ttlReshape t s, n) := by
  simp only [_reshapeF, except_pure_eq_ok, except_bind_ok]
  by_cases heq : t.shape = s ∧ t.shape.logical = s.logical
  · rw [if_pos heq]
    have h2 : ttlReshape t s = t := by rw [← heq.1]; exact ttlReshape_self t
    rw [h2]
  · rw [if_neg heq]
    simp [hc, isOnDevice, hh]

/-- The contiguous-device reinterpretation fast path of `_reshape`
(src lines 116-120): permitted when the trailing dim is unchanged. -/
theorem _reshapeF_shp_device (f : Nat) (t : TtTensor) (s : Shape) (n : Nat) (a : Int)
    (d : Nat) (mc : MemoryConfig)
    (hc : is_contiguous t = true) (hs : t.storage = .device d mc)
    (ha : t.shape.logical.getLast? = some a) (hb : s.logical.getLast? = some a) :
    _reshapeF (f + 1) t (.shp s) n = .ok (ttlReshape t s, n) := by
  simp only [_reshapeF, except_pure_eq_ok, except_bind_ok]
  by_cases heq : t.shape = s ∧ t.shape.logical = s.logical
  · rw [if_pos heq]
    have h2 : ttlReshape t s = t := by rw [← heq.1]; exact ttlReshape_self t
    rw [h2]
  · rw [if_neg heq]
    simp [hc, isOnDevice, hs, ha, hb]

/-- The contiguous-host fast path of `_reshape` for a tuple argument. -/
theorem _reshapeF_tup_host (f : Nat) (t : TtTensor) (tup r : List Int) (n : Nat)
    (hres : resolveReshapeTuple (volume t.shape.logical) tup = .ok r)
    (hc : is_contiguous t = true) (hh : t.storage = .host) :
    _reshapeF (f + 1) t (.tup tup) n = .ok (ttlReshape t ⟨r, r⟩, n) := by
  simp only [_reshapeF, hres, except_pure_eq_ok, except_bind_ok]
  by_cases heq : t.shape = (⟨r, r⟩ : Shape) ∧ t.shape.logical = r
  · rw [if_pos heq]
    have h2 : ttlReshape t ⟨r, r⟩ = t := by rw [← heq.1]; exact ttlReshape_self t
    rw [h2]
  · rw [if_neg heq]
    simp [hc, isOnDevice, hh]

/-- `_reshape` on a tuple spelling out the tensor's own logical shape is the
identity (src lines 107-108), on host or on device. -/
theorem _reshapeF_tup_self (f : Nat) (t : TtTensor) (tup : List Int) (n : Nat)
    (hres : resolveReshapeTuple (volume t.shape.logical) tup = .ok tup)
    (hsh : t.shape = ⟨tup, tup⟩) :
    _reshapeF (f + 1) t (.tup tup) n = .ok (t, n) := by
  simp only [_reshapeF, hres, except_pure_eq_ok, except_bind_ok]
  rw [if_pos ⟨hsh, by rw [hsh]⟩]

/-- The tile-aligned reinterpretation fast path of `_reshape`
(src lines 124-127). -/
theorem _reshapeF_shp_tile (f : Nat) (t : TtTensor) (s : Shape) (n : Nat)
    (ht : t.layout = .TILE)
    (hne : t.shape.logical ≠ s.logical)
    (hlen : 2 ≤ s.padded.length)
    (hH : (s.padded.dropLast.getLastD 0) % TILE_SIZE = 0)
    (hW : (s.padded.getLastD 0) % TILE_SIZE = 0) :
    _reshapeF (f + 2) t (.shp s) n = .ok (ttlReshape t s, n) := by
  show _reshapeF (f + 1 + 1) t (.shp s) n = _
  simp only [_reshapeF, except_pure_eq_ok, except_bind_ok]
  rw [if_neg (fun h => hne h.2)]
  have hcf : is_contiguous t = false := by simp [is_contiguous, ht]
  simp only [hcf, Bool.false_eq_true, if_false]
  have hH2 : TILE_SIZE ∣ s.padded.dropLast.getLast?.getD 0 := by
    rw [← List.getLastD_eq_getLast?]
    exact Int.dvd_of_emod_eq_zero hH
  have hW2 : TILE_SIZE ∣ s.padded.getLast?.getD 0 := by
    rw [← List.getLastD_eq_getLast?]
    exact Int.dvd_of_emod_eq_zero hW
  simp [_reshape_slowF, ht, hlen, hH2, hW2]

/-- `_reshape_to_4D` on a rank-4 tensor is the identity (src lines 167-168). -/
theorem _reshape_to_4DF_rank4 (f : Nat) (t : TtTensor) (n : Nat)
    (h : t.shape.logical.length = 4) : _reshape_to_4DF (f + 1) t n = .ok (t, n) := by
  simp [_reshape_to_4DF, h]

/-- `_reshape_to_4D` on a low-rank, trivially padded row-major host tensor
left-pads the shape with ones by pure reinterpretation. -/
theorem _reshape_to_4DF_host_rm (f : Nat) (t : TtTensor) (n : Nat)
    (hh : t.storage = .host) (hl : t.layout = .ROW_MAJOR)
    (hp : t.shape.padded = t.shape.logical) (hlen : t.shape.logical.length < 4) :
    _reshape_to_4DF (f + 2) t n =
      .ok (ttlReshape t ⟨List.replicate (4 - t.shape.logical.length) 1 ++ t.shape.logical,
                         List.replicate (4 - t.shape.logical.length) 1 ++ t.shape.padded⟩,
           n) := by
  show _reshape_to_4DF (f + 1 + 1) t n = _
  simp only [_reshape_to_4DF]
  rw [if_neg (by omega), if_neg (by omega)]
  exact _reshapeF_shp_host f t _ n (by simp [is_contiguous, hl, hp]) hh

/-- `_reshape_to_4D` on a low-rank, trivially padded row-major device tensor
left-pads the shape with ones by pure reinterpretation (the trailing dim is
unchanged). -/
theorem _reshape_to_4DF_device_rm (f : Nat) (t : TtTensor) (n : Nat) (a : Int)
    (d : Nat) (mc : MemoryConfig)
    (hs : t.storage = .device d mc) (hl : t.layout = .ROW_MAJOR)
    (hp : t.shape.padded = t.shape.logical) (hlen : t.shape.logical.length < 4)
    (ha : t.shape.logical.getLast? = some a) :
    _reshape_to_4DF (f + 2) t n =
      .ok (ttlReshape t ⟨List.replicate (4 - t.shape.logical.length) 1 ++ t.shape.logical,
                         List.replicate (4 - t.shape.logical.length) 1 ++ t.shape.padded⟩,
           n) := by
  show _reshape_to_4DF (f + 1 + 1) t n = _
  simp only [_reshape_to_4DF]
  rw [if_neg (by omega), if_neg (by omega)]
  refine _reshapeF_shp_device f t _ n a d mc (by simp [is_contiguous, hl, hp]) hs ha ?_
  show (List.replicate (4 - t.shape.logical.length) 1 ++ t.shape.logical).getLast? = some a
  rw [List.getLast?_append_of_ne_nil _ (by intro h0; rw [h0] at ha; simp at ha), ha]

/-! ## Traces of `to_layout` into TILE layout (the tiling/padding branch) -/

theorem roundUp32_ne_self (d : Int) (h : ¬ d % TILE_SIZE = 0) : roundUp32 d ≠ d := by
  intro h0
  exact h (by rw [← h0]; exact roundUp32_emod d)

theorem rpc_tile_pair_false (b : List Int) (h w : Int) (hb : b.length ≤ 2)
    (hh : h % TILE_SIZE = 0) (hw : w % TILE_SIZE = 0) :
    requires_padding_change .TILE ⟨b ++ [h, w], b ++ [h, w]⟩ = false := by
  rcases b with _ | ⟨b1, _ | ⟨b2, _ | ⟨b3, rest⟩⟩⟩
  · unfold requires_padding_change lastTwo
    rw [if_neg (by simp)]
    rw [if_neg (by rintro ⟨-, -, h3 | h3 | h3⟩ <;> simp_all)]
  · unfold requires_padding_change lastTwo
    rw [if_neg (by simp)]
    rw [if_neg (by rintro ⟨-, -, h3 | h3 | h3⟩ <;> simp_all)]
  · unfold requires_padding_change lastTwo
    rw [if_neg (by simp)]
    rw [if_neg (by rintro ⟨-, -, h3 | h3 | h3⟩ <;> simp_all)]
  · simp at hb

theorem rpc_tile_pair_true (b : List Int) (h w : Int) (hb : b.length ≤ 2)
    (hal : ¬ (h % TILE_SIZE = 0 ∧ w % TILE_SIZE = 0)) :
    requires_padding_change .TILE ⟨b ++ [h, w], b ++ [h, w]⟩ = true := by
  rcases b with _ | ⟨b1, _ | ⟨b2, _ | ⟨b3, rest⟩⟩⟩
  · unfold requires_padding_change lastTwo
    rw [if_neg (by simp),
      if_pos ⟨rfl, rfl, by simpa using Or.symm (Decidable.not_and_iff_or_not.mp hal)⟩]
  · unfold requires_padding_change lastTwo
    rw [if_neg (by simp),
      if_pos ⟨rfl, rfl, by simpa using Or.symm (Decidable.not_and_iff_or_not.mp hal)⟩]
  · unfold requires_padding_change lastTwo
    rw [if_neg (by simp),
      if_pos ⟨rfl, rfl, by simpa using Or.symm (Decidable.not_and_iff_or_not.mp hal)⟩]
  · simp at hb

/-- `to_layout` into TILE on a rank-4, trivially padded row-major tensor:
layout becomes tiled, the logical shape is unchanged, the padded last-two
dims are rounded up to multiples of the tile edge, the storage is
unchanged. -/
theorem to_layout_tile_rank4 (f : Nat) (dt : DataType) (st : Storage) (b1 b2 h w : Int)
    (bid n : Nat) :
    ∃ bid2 n2,
      to_layoutF (f + 3) ⟨dt, .ROW_MAJOR, st, ⟨[b1, b2, h, w], [b1, b2, h, w]⟩, bid⟩ .TILE n =
        .ok (⟨dt, .TILE, st, ⟨[b1, b2, h, w], [b1, b2, roundUp32 h, roundUp32 w]⟩, bid2⟩, n2) := by
  by_cases hal : h % TILE_SIZE = 0 ∧ w % TILE_SIZE = 0
  · have hrpc : requires_padding_change .TILE
        ⟨[b1, b2, h, w], [b1, b2, h, w]⟩ = false := by
      simpa using rpc_tile_pair_false [b1, b2] h w (by simp) hal.1 hal.2
    rw [roundUp32_eq_self h hal.1, roundUp32_eq_self w hal.2]
    cases st with
    | host =>
      refine ⟨n, n + 1, ?_⟩
      simp [to_layoutF, hrpc, isOnDevice, ttlToLayout]
    | device d mc =>
      refine ⟨n, n + 1, ?_⟩
      simp [to_layoutF, hrpc, isOnDevice, ttlTilize]
  · have hrpc : requires_padding_change .TILE
        ⟨[b1, b2, h, w], [b1, b2, h, w]⟩ = true := by
      simpa using rpc_tile_pair_true [b1, b2] h w (by simp) hal
    have hne : ∀ st2 : Storage,
        (⟨dt, .TILE, st2, ⟨[b1, b2, roundUp32 h, roundUp32 w],
          [b1, b2, roundUp32 h, roundUp32 w]⟩, n⟩ : TtTensor).shape.logical ≠
          (⟨[b1, b2, h, w], [b1, b2, roundUp32 h, roundUp32 w]⟩ : Shape).logical := by
      intro st2 hcon
      simp only [List.cons.injEq, and_true, true_and] at hcon
      rcases Decidable.not_and_iff_or_not.mp hal with h0 | h0
      · exact roundUp32_ne_self h h0 hcon.1
      · exact roundUp32_ne_self w h0 hcon.2
    cases st with
    | host =>
      have h4D : _reshape_to_4DF (f + 2)
          ⟨dt, .ROW_MAJOR, .host, ⟨[b1, b2, h, w], [b1, b2, h, w]⟩, bid⟩ n =
          .ok (⟨dt, .ROW_MAJOR, .host, ⟨[b1, b2, h, w], [b1, b2, h, w]⟩, bid⟩, n) :=
        _reshape_to_4DF_rank4 (f + 1) _ n (by simp)
      have hfin : _reshapeF (f + 2)
          ⟨dt, .TILE, .host, ⟨[b1, b2, roundUp32 h, roundUp32 w],
            [b1, b2, roundUp32 h, roundUp32 w]⟩, n + 1⟩
          (.shp ⟨[b1, b2, h, w], [b1, b2, roundUp32 h, roundUp32 w]⟩) (n + 1 + 1) =
          .ok (⟨dt, .TILE, .host, ⟨[b1, b2, h, w], [b1, b2, roundUp32 h, roundUp32 w]⟩,
            n + 1⟩, n + 1 + 1) :=
        _reshapeF_shp_tile f _ _ (n + 1 + 1) rfl (hne Storage.host) (by simp)
          (by simpa using roundUp32_emod h) (by simpa using roundUp32_emod w)
      have e1 : ([b1, b2, h, w] : List Int).dropLast.getLastD 1 = h := rfl
      have e2 : ([b1, b2, h, w] : List Int).getLast? = some w := rfl
      have e3 : dropLastTwo ([b1, b2, h, w] : List Int) = [b1, b2] := rfl
      refine ⟨n + 1, n + 1 + 1, ?_⟩
      simp only [to_layoutF, hrpc, isOnDevice]
      rw [if_neg (by simp), if_neg (by simp)]
      simp only [e1, e2, e3, List.length_cons, List.length_nil, h4D, except_bind_ok,
        List.cons_append, List.nil_append]
      simp only [roundUp32] at hfin
      simp [ttlPad, ttlToLayout, ttlTilizeWithValPadding, dropLastTwo, hfin]
      exact ⟨rfl, rfl⟩
    | device d mc =>
      have h4D : _reshape_to_4DF (f + 2)
          ⟨dt, .ROW_MAJOR, .device d mc, ⟨[b1, b2, h, w], [b1, b2, h, w]⟩, bid⟩ n =
          .ok (⟨dt, .ROW_MAJOR, .device d mc, ⟨[b1, b2, h, w], [b1, b2, h, w]⟩, bid⟩, n) :=
        _reshape_to_4DF_rank4 (f + 1) _ n (by simp)
      have hfin : _reshapeF (f + 2)
          ⟨dt, .TILE, .device d mc, ⟨[b1, b2, roundUp32 h, roundUp32 w],
            [b1, b2, roundUp32 h, roundUp32 w]⟩, n⟩
          (.shp ⟨[b1, b2, h, w], [b1, b2, roundUp32 h, roundUp32 w]⟩) (n + 1) =
          .ok (⟨dt, .TILE, .device d mc, ⟨[b1, b2, h, w], [b1, b2, roundUp32 h, roundUp32 w]⟩,
            n⟩, n + 1) :=
        _reshapeF_shp_tile f _ _ (n + 1) rfl (hne (Storage.device d mc)) (by simp)
          (by simpa using roundUp32_emod h) (by simpa using roundUp32_emod w)
      have e1 : ([b1, b2, h, w] : List Int).dropLast.getLastD 1 = h := rfl
      have e2 : ([b1, b2, h, w] : List Int).getLast? = some w := rfl
      have e3 : dropLastTwo ([b1, b2, h, w] : List Int) = [b1, b2] := rfl
      refine ⟨n, n + 1, ?_⟩
      simp only [to_layoutF, hrpc, isOnDevice]
      rw [if_neg (by simp), if_neg (by simp)]
      simp only [e1, e2, e3, List.length_cons, List.length_nil, h4D, except_bind_ok,
        List.cons_append, List.nil_append]
      simp only [roundUp32] at hfin
      simp [ttlPad, ttlToLayout, ttlTilizeWithValPadding, dropLastTwo, hfin]
      exact ⟨rfl, rfl⟩
/-- `to_layout` into TILE on a rank-3, trivially padded row-major tensor:
same statement as the rank-4 case; the tensor is first normalized to 4D by
reinterpretation and the final reshape restores the original rank. -/
theorem to_layout_tile_rank3 (f : Nat) (dt : DataType) (st : Storage) (b1 h w : Int)
    (bid n : Nat) :
    ∃ bid2 n2,
      to_layoutF (f + 3) ⟨dt, .ROW_MAJOR, st, ⟨[b1, h, w], [b1, h, w]⟩, bid⟩ .TILE n =
        .ok (⟨dt, .TILE, st, ⟨[b1, h, w], [b1, roundUp32 h, roundUp32 w]⟩, bid2⟩, n2) := by
  by_cases hal : h % TILE_SIZE = 0 ∧ w % TILE_SIZE = 0
  · have hrpc : requires_padding_change .TILE ⟨[b1, h, w], [b1, h, w]⟩ = false := by
      simpa using rpc_tile_pair_false [b1] h w (by simp) hal.1 hal.2
    rw [roundUp32_eq_self h hal.1, roundUp32_eq_self w hal.2]
    cases st with
    | host =>
      refine ⟨n, n + 1, ?_⟩
      simp [to_layoutF, hrpc, isOnDevice, ttlToLayout]
    | device d mc =>
      refine ⟨n, n + 1, ?_⟩
      simp [to_layoutF, hrpc, isOnDevice, ttlTilize]
  · have hrpc : requires_padding_change .TILE ⟨[b1, h, w], [b1, h, w]⟩ = true := by
      simpa using rpc_tile_pair_true [b1] h w (by simp) hal
    cases st with
    | host =>
      have h4D : _reshape_to_4DF (f + 2)
          ⟨dt, .ROW_MAJOR, .host, ⟨[b1, h, w], [b1, h, w]⟩, bid⟩ n =
          .ok (⟨dt, .ROW_MAJOR, .host, ⟨[1, b1, h, w], [1, b1, h, w]⟩, bid⟩, n) := by
        simpa [ttlReshape] using
          _reshape_to_4DF_host_rm f ⟨dt, .ROW_MAJOR, .host, ⟨[b1, h, w], [b1, h, w]⟩, bid⟩ n rfl rfl rfl
            (by simp)
      have hfin : _reshapeF (f + 2)
          ⟨dt, .TILE, .host, ⟨[1, b1] ++ [roundUp32 h, roundUp32 w],
            [1, b1] ++ [roundUp32 h, roundUp32 w]⟩, n + 1⟩
          (.shp ⟨[b1, h, w], [b1, roundUp32 h, roundUp32 w]⟩) (n + 1 + 1) =
          .ok (⟨dt, .TILE, .host, ⟨[b1, h, w], [b1, roundUp32 h, roundUp32 w]⟩, n + 1⟩, n + 1 + 1) :=
        _reshapeF_shp_tile f _ _ (n + 1 + 1) rfl (by simp) (by simp)
          (by simpa using roundUp32_emod h) (by simpa using roundUp32_emod w)
      refine ⟨n + 1, n + 1 + 1, ?_⟩
      simp only [to_layoutF, hrpc, isOnDevice]
      rw [if_neg (by simp), if_neg (by simp)]
      simp only [show ([b1, h, w] : List Int).getLast? = some w from rfl,
        show ([b1, h, w] : List Int).dropLast.getLastD 1 = h from rfl,
        show dropLastTwo ([b1, h, w] : List Int) = [b1] from rfl,
        List.length_cons, List.length_nil, h4D, except_bind_ok,
        List.cons_append, List.nil_append]
      simp only [roundUp32, List.cons_append, List.nil_append] at hfin
      simp [ttlPad, ttlToLayout, ttlTilizeWithValPadding, dropLastTwo, hfin, roundUp32]
    | device d mc =>
      have h4D : _reshape_to_4DF (f + 2)
          ⟨dt, .ROW_MAJOR, .device d mc, ⟨[b1, h, w], [b1, h, w]⟩, bid⟩ n =
          .ok (⟨dt, .ROW_MAJOR, .device d mc, ⟨[1, b1, h, w], [1, b1, h, w]⟩, bid⟩, n) := by
        simpa [ttlReshape] using
          _reshape_to_4DF_device_rm f ⟨dt, .ROW_MAJOR, .device d mc, ⟨[b1, h, w], [b1, h, w]⟩, bid⟩ n w
            d mc rfl rfl rfl (by simp) rfl
      have hfin : _reshapeF (f + 2)
          ⟨dt, .TILE, .device d mc, ⟨[1, b1] ++ [roundUp32 h, roundUp32 w],
            [1, b1] ++ [roundUp32 h, roundUp32 w]⟩, n⟩
          (.shp ⟨[b1, h, w], [b1, roundUp32 h, roundUp32 w]⟩) (n + 1) =
          .ok (⟨dt, .TILE, .device d mc, ⟨[b1, h, w], [b1, roundUp32 h, roundUp32 w]⟩, n⟩, n + 1) :=
        _reshapeF_shp_tile f _ _ (n + 1) rfl (by simp) (by simp)
          (by simpa using roundUp32_emod h) (by simpa using roundUp32_emod w)
      refine ⟨n, n + 1, ?_⟩
      simp only [to_layoutF, hrpc, isOnDevice]
      rw [if_neg (by simp), if_neg (by simp)]
      simp only [show ([b1, h, w] : List Int).getLast? = some w from rfl,
        show ([b1, h, w] : List Int).dropLast.getLastD 1 = h from rfl,
        show dropLastTwo ([b1, h, w] : List Int) = [b1] from rfl,
        List.length_cons, List.length_nil, h4D, except_bind_ok,
        List.cons_append, List.nil_append]
      simp only [roundUp32, List.cons_append, List.nil_append] at hfin
      simp [ttlPad, ttlToLayout, ttlTilizeWithValPadding, dropLastTwo, hfin, roundUp32]

/-- `to_layout` into TILE on a rank-2, trivially padded row-major tensor:
same statement as the rank-4 case; the tensor is first normalized to 4D by
reinterpretation and the final reshape restores the original rank. -/
theorem to_layout_tile_rank2 (f : Nat) (dt : DataType) (st : Storage) (h w : Int)
    (bid n : Nat) :
    ∃ bid2 n2,
      to_layoutF (f + 3) ⟨dt, .ROW_MAJOR, st, ⟨[h, w], [h, w]⟩, bid⟩ .TILE n =
        .ok (⟨dt, .TILE, st, ⟨[h, w], [roundUp32 h, roundUp32 w]⟩, bid2⟩, n2) := by
  by_cases hal : h % TILE_SIZE = 0 ∧ w % TILE_SIZE = 0
  · have hrpc : requires_padding_change .TILE ⟨[h, w], [h, w]⟩ = false := by
      simpa using rpc_tile_pair_false ([] : List Int) h w (by simp) hal.1 hal.2
    rw [roundUp32_eq_self h hal.1, roundUp32_eq_self w hal.2]
    cases st with
    | host =>
      refine ⟨n, n + 1, ?_⟩
      simp [to_layoutF, hrpc, isOnDevice, ttlToLayout]
    | device d mc =>
      refine ⟨n, n + 1, ?_⟩
      simp [to_layoutF, hrpc, isOnDevice, ttlTilize]
  · have hrpc : requires_padding_change .TILE ⟨[h, w], [h, w]⟩ = true := by
      simpa using rpc_tile_pair_true ([] : List Int) h w (by simp) hal
    cases st with
    | host =>
      have h4D : _reshape_to_4DF (f + 2)
          ⟨dt, .ROW_MAJOR, .host, ⟨[h, w], [h, w]⟩, bid⟩ n =
          .ok (⟨dt, .ROW_MAJOR, .host, ⟨[1, 1, h, w], [1, 1, h, w]⟩, bid⟩, n) := by
        simpa [ttlReshape] using
          _reshape_to_4DF_host_rm f ⟨dt, .ROW_MAJOR, .host, ⟨[h, w], [h, w]⟩, bid⟩ n rfl rfl rfl
            (by simp)
      have hfin : _reshapeF (f + 2)
          ⟨dt, .TILE, .host, ⟨[1, 1] ++ [roundUp32 h, roundUp32 w],
            [1, 1] ++ [roundUp32 h, roundUp32 w]⟩, n + 1⟩
          (.shp ⟨[h, w], [roundUp32 h, roundUp32 w]⟩) (n + 1 + 1) =
          .ok (⟨dt, .TILE, .host, ⟨[h, w], [roundUp32 h, roundUp32 w]⟩, n + 1⟩, n + 1 + 1) :=
        _reshapeF_shp_tile f _ _ (n + 1 + 1) rfl (by simp) (by simp)
          (by simpa using roundUp32_emod h) (by simpa using roundUp32_emod w)
      refine ⟨n + 1, n + 1 + 1, ?_⟩
      simp only [to_layoutF, hrpc, isOnDevice]
      rw [if_neg (by simp), if_neg (by simp)]
      simp only [show ([h, w] : List Int).getLast? = some w from rfl,
        show ([h, w] : List Int).dropLast.getLastD 1 = h from rfl,
        show dropLastTwo ([h, w] : List Int) = [] from rfl,
        List.length_cons, List.length_nil, h4D, except_bind_ok,
        List.cons_append, List.nil_append]
      simp only [roundUp32, List.cons_append, List.nil_append] at hfin
      simp [ttlPad, ttlToLayout, ttlTilizeWithValPadding, dropLastTwo, hfin, roundUp32]
    | device d mc =>
      have h4D : _reshape_to_4DF (f + 2)
          ⟨dt, .ROW_MAJOR, .device d mc, ⟨[h, w], [h, w]⟩, bid⟩ n =
          .ok (⟨dt, .ROW_MAJOR, .device d mc, ⟨[1, 1, h, w], [1, 1, h, w]⟩, bid⟩, n) := by
        simpa [ttlReshape] using
          _reshape_to_4DF_device_rm f ⟨dt, .ROW_MAJOR, .device d mc, ⟨[h, w], [h, w]⟩, bid⟩ n w
            d mc rfl rfl rfl (by simp) rfl
      have hfin : _reshapeF (f + 2)
          ⟨dt, .TILE, .device d mc, ⟨[1, 1] ++ [roundUp32 h, roundUp32 w],
            [1, 1] ++ [roundUp32 h, roundUp32 w]⟩, n⟩
          (.shp ⟨[h, w], [roundUp32 h, roundUp32 w]⟩) (n + 1) =
          .ok (⟨dt, .TILE, .device d mc, ⟨[h, w], [roundUp32 h, roundUp32 w]⟩, n⟩, n + 1) :=
        _reshapeF_shp_tile f _ _ (n + 1) rfl (by simp) (by simp)
          (by simpa using roundUp32_emod h) (by simpa using roundUp32_emod w)
      refine ⟨n, n + 1, ?_⟩
      simp only [to_layoutF, hrpc, isOnDevice]
      rw [if_neg (by simp), if_neg (by simp)]
      simp only [show ([h, w] : List Int).getLast? = some w from rfl,
        show ([h, w] : List Int).dropLast.getLastD 1 = h from rfl,
        show dropLastTwo ([h, w] : List Int) = [] from rfl,
        List.length_cons, List.length_nil, h4D, except_bind_ok,
        List.cons_append, List.nil_append]
      simp only [roundUp32, List.cons_append, List.nil_append] at hfin
      simp [ttlPad, ttlToLayout, ttlTilizeWithValPadding, dropLastTwo, hfin, roundUp32]


/-! ## Traces of `to_layout` into ROW_MAJOR on padded device tensors, and of
the slicing operation -/

/-- `to_layout` into ROW_MAJOR on a rank-4 tiled device tensor whose last
two dims are padded (src lines 255-284): when the unpadded width is even the
native untile-with-unpadding primitive is used and the result stays on the
device with its memory config; when the width is odd the tensor is moved to
host, unpadded there, and the result remains on host. -/
theorem to_layout_rm_device_tile4 (f : Nat) (dt : DataType) (d : Nat) (mc : MemoryConfig)
    (b1 b2 h w ph pw : Int) (bid n : Nat)
    (hnn : 0 ≤ b1 ∧ 0 ≤ b2 ∧ 0 ≤ h ∧ 0 ≤ w)
    (hpad : [h, w] ≠ [ph, pw]) :
    ∃ bid2 n2,
      to_layoutF (f + 2) ⟨dt, .TILE, .device d mc, ⟨[b1, b2, h, w], [b1, b2, ph, pw]⟩, bid⟩
          .ROW_MAJOR n =
        .ok (⟨dt, .ROW_MAJOR, if w % 2 = 0 then Storage.device d mc else Storage.host,
              ⟨[b1, b2, h, w], [b1, b2, h, w]⟩, bid2⟩, n2) := by
  obtain ⟨hb1, hb2, hh, hw⟩ := hnn
  have hrpc : requires_padding_change .ROW_MAJOR
      ⟨[b1, b2, h, w], [b1, b2, ph, pw]⟩ = true := by
    unfold requires_padding_change lastTwo
    rw [if_pos ⟨rfl, by simpa using hpad⟩]
  have hres : ∀ L : List Int, L = [b1, b2, h, w] →
      resolveReshapeTuple (volume L) [b1, b2, h, w] = .ok [b1, b2, h, w] := by
    intro L _
    refine resolveReshapeTuple_nonneg _ _ ?_
    intro x hx
    simp at hx
    rcases hx with rfl | rfl | rfl | rfl <;> omega
  by_cases hw2 : w % 2 = 0
  · -- even width: native untilize_with_unpadding, stays on device
    have h4D : _reshape_to_4DF (f + 1)
        ⟨dt, .TILE, .device d mc, ⟨[b1, b2, h, w], [b1, b2, ph, pw]⟩, bid⟩ n =
        .ok (⟨dt, .TILE, .device d mc, ⟨[b1, b2, h, w], [b1, b2, ph, pw]⟩, bid⟩, n) :=
      _reshape_to_4DF_rank4 f _ n (by simp)
    have hfin : _reshapeF (f + 1)
        ⟨dt, .ROW_MAJOR, .device d mc, ⟨[b1, b2, h, w], [b1, b2, h, w]⟩, n⟩
        (.tup [b1, b2, h, w]) (n + 1) =
        .ok (⟨dt, .ROW_MAJOR, .device d mc, ⟨[b1, b2, h, w], [b1, b2, h, w]⟩, n⟩, n + 1) :=
      _reshapeF_tup_self f _ _ (n + 1) (hres _ rfl) rfl
    refine ⟨n, n + 1, ?_⟩
    rw [if_pos hw2]
    simp only [to_layoutF, hrpc, isOnDevice]
    rw [if_neg (by simp), if_neg (by simp)]
    simp only [show ([b1, b2, h, w] : List Int).getLast? = some w from rfl, if_true]
    rw [if_pos (show Layout.TILE ≠ Layout.ROW_MAJOR ∧ w % 2 = 0 from ⟨by simp, hw2⟩)]
    simp only [h4D, except_bind_ok, ttlUntilizeWithUnpadding]
    simpa using hfin
  · -- odd width: host round-trip; the result is not moved back to the device
    have h4D : _reshape_to_4DF (f + 1)
        ⟨dt, .ROW_MAJOR, .host, ⟨[b1, b2, h, w], [b1, b2, ph, pw]⟩, n + 1⟩ (n + 1 + 1) =
        .ok (⟨dt, .ROW_MAJOR, .host, ⟨[b1, b2, h, w], [b1, b2, ph, pw]⟩, n + 1⟩, n + 1 + 1) :=
      _reshape_to_4DF_rank4 f _ _ (by simp)
    have hfin : _reshapeF (f + 1)
        ⟨dt, .ROW_MAJOR, .host, ⟨[b1, b2, h, w], [b1, b2, h, w]⟩, n + 1 + 1⟩
        (.tup [b1, b2, h, w]) (n + 1 + 1 + 1) =
        .ok (⟨dt, .ROW_MAJOR, .host, ⟨[b1, b2, h, w], [b1, b2, h, w]⟩, n + 1 + 1⟩,
          n + 1 + 1 + 1) :=
      _reshapeF_tup_self f _ _ _ (hres _ rfl) rfl
    refine ⟨n + 1 + 1, n + 1 + 1 + 1, ?_⟩
    rw [if_neg hw2]
    simp only [to_layoutF, hrpc, isOnDevice]
    rw [if_neg (by simp), if_neg (by simp)]
    simp only [show ([b1, b2, h, w] : List Int).getLast? = some w from rfl, if_true]
    rw [if_neg (show ¬ (Layout.TILE ≠ Layout.ROW_MAJOR ∧ w % 2 = 0) from fun hc => hw2 hc.2)]
    simp only [from_device, ttlCpu, except_bind_ok]
    simp [ttlToLayout, dropLastTwo, h4D, ttlUnpadFromTile, hfin, except_bind_ok]

/-- Slicing a row-major device tensor (src lines 60-69): host round-trip, a
fresh buffer, the sliced logical shape, the input dtype, and re-placement on
the same device with the default DRAM memory config. -/
theorem getitem_device_trace (f : Nat) (dt : DataType) (d : Nat) (mc : MemoryConfig)
    (s : List Int) (slices : List (Int × Int)) (bid n : Nat) :
    getitemF (f + 2) ⟨dt, .ROW_MAJOR, .device d mc, ⟨s, s⟩, bid⟩ slices n =
      .ok (⟨dt, .ROW_MAJOR, .device d DRAM_MEMORY_CONFIG,
        ⟨sliceShape slices s, sliceShape slices s⟩, n + 1 + 1⟩, n + 1 + 1 + 1) := by
  have htt : to_torchF (f + 2) ⟨dt, .ROW_MAJOR, .host, ⟨s, s⟩, n⟩ (n + 1) =
      .ok (⟨s, dt⟩, n + 1) :=
    to_torchF_host_rm (f + 1) _ _ rfl rfl rfl
  have hft : from_torchF (f + 2) ⟨sliceShape slices s, dt⟩ (some dt) (some .ROW_MAJOR)
      none none (n + 1) =
      .ok (⟨dt, .ROW_MAJOR, .host, ⟨sliceShape slices s, sliceShape slices s⟩, n + 1⟩,
        n + 1 + 1) := by
    simpa using from_torchF_rm f ⟨sliceShape slices s, dt⟩ (some dt) (n + 1)
  unfold getitemF
  rw [if_neg (by simp)]
  simp [isOnDevice, from_device, ttlCpu, deviceIdOf, htt, torchGetitem, hft,
    to_device, ttlToDevice, except_bind_ok]


/-! ## The claims -/

/-- Claim C1 counterexample: the claim says reshape raises a ShapeError for
every requested shape of resolved rank above 4; but `_reshape` performs no
rank validation: a rank-5 request on a rank-4 host contiguous tensor
succeeds as a metadata reinterpretation. -/
theorem c1_counterexample :
    _reshape ⟨.bfloat16, .ROW_MAJOR, .host, ⟨[2, 3, 4, 5], [2, 3, 4, 5]⟩, 0⟩
        (.tup [1, 2, 3, 4, 5]) 0 =
      .ok (⟨.bfloat16, .ROW_MAJOR, .host, ⟨[1, 2, 3, 4, 5], [1, 2, 3, 4, 5]⟩, 0⟩, 0) := rfl

/-- Claim C1 (amended): the rank-above-4 error is raised only by
`_reshape_to_4D`, and only when the TENSOR's own rank exceeds 4; `_reshape`
itself does not validate the requested rank, and a rank-5 request on a
rank-4 host contiguous tensor succeeds as a reinterpretation carrying the
rank-5 shape. -/
theorem c1_amended :
    (∀ (t : TtTensor) (n : Nat), 4 < t.shape.logical.length →
        _reshape_to_4D t n =
          .error (.runtime "Tensor cannot have more than 4 dimensions!")) ∧
    (∀ (dt : DataType) (s tup : List Int) (bid n : Nat),
        s.length = 4 → tup.length = 5 → (∀ x ∈ tup, 0 ≤ x) →
        _reshape ⟨dt, .ROW_MAJOR, .host, ⟨s, s⟩, bid⟩ (.tup tup) n =
          .ok (⟨dt, .ROW_MAJOR, .host, ⟨tup, tup⟩, bid⟩, n)) := by
  constructor
  · intro t n h
    show _reshape_to_4DF (63 + 1) t n = _
    unfold _reshape_to_4DF
    rw [if_neg (by omega), if_pos (by omega)]
  · intro dt s tup bid n hs htup hnn
    have hres := resolveReshapeTuple_nonneg (volume s) tup hnn
    have h2 := _reshapeF_tup_host 63 ⟨dt, .ROW_MAJOR, .host, ⟨s, s⟩, bid⟩ tup tup n hres
      (by simp [is_contiguous]) rfl
    simpa [ttlReshape] using h2

/-- Claim C1 amended witness: the two amended statements at concrete
inputs — a rank-5 tensor is rejected by the 4D normalization, and a rank-5
request on a rank-4 tensor succeeds. -/
theorem c1_amended_witness :
    _reshape_to_4D ⟨.bfloat16, .ROW_MAJOR, .host,
        ⟨[1, 1, 1, 2, 2], [1, 1, 1, 2, 2]⟩, 0⟩ 0 =
      .error (.runtime "Tensor cannot have more than 4 dimensions!") ∧
    _reshape ⟨.bfloat16, .ROW_MAJOR, .host, ⟨[2, 3, 4, 5], [2, 3, 4, 5]⟩, 7⟩
        (.tup [1, 2, 3, 4, 5]) 3 =
      .ok (⟨.bfloat16, .ROW_MAJOR, .host, ⟨[1, 2, 3, 4, 5], [1, 2, 3, 4, 5]⟩, 7⟩, 3) :=
  ⟨c1_amended.1 _ 0 (by decide),
   c1_amended.2 .bfloat16 [2, 3, 4, 5] [1, 2, 3, 4, 5] 7 3 (by decide) (by decide) (by decide)⟩

/-- Claim C2 counterexample: the claim says a non-divisible wildcard raises
a ShapeError; but reshaping a volume-24 tensor to (-1, 7) raises nothing:
the wildcard is silently resolved by floor division to 3, producing a shape
of volume 21. -/
theorem c2_counterexample :
    _reshape ⟨.bfloat16, .ROW_MAJOR, .host, ⟨[2, 3, 4], [2, 3, 4]⟩, 0⟩ (.tup [-1, 7]) 0 =
      .ok (⟨.bfloat16, .ROW_MAJOR, .host, ⟨[3, 7], [3, 7]⟩, 0⟩, 0) := rfl

/-- Claim C2 (amended): more than one wildcard raises the error, and a
single wildcard among positive entries resolves to `volume // product`
by FLOOR DIVISION with no divisibility check — when the volume is evenly
divisible this is exactly the quotient, and when it is not, no error is
raised (the floored value is used silently). -/
theorem c2_amended :
    (∀ (t : TtTensor) (tup : List Int) (n : Nat), 2 ≤ tup.count (-1) →
        _reshape t (.tup tup) n =
          .error (.runtime "Shape cannot have more than 1 elements that is set to -1!")) ∧
    (∀ (dt : DataType) (s pre post : List Int) (bid n : Nat),
        (∀ x ∈ pre ++ post, 0 < x) →
        _reshape ⟨dt, .ROW_MAJOR, .host, ⟨s, s⟩, bid⟩ (.tup (pre ++ -1 :: post)) n =
          .ok (⟨dt, .ROW_MAJOR, .host,
            ⟨pre ++ Int.fdiv s.prod ((pre ++ post).prod) :: post,
             pre ++ Int.fdiv s.prod ((pre ++ post).prod) :: post⟩, bid⟩, n) ∧
        (∀ q : Int, s.prod = (pre ++ post).prod * q →
          Int.fdiv s.prod ((pre ++ post).prod) = q)) := by
  constructor
  · intro t tup n hcount
    show _reshapeF (63 + 1) t (.tup tup) n = _
    have hr : resolveReshapeTuple (volume t.shape.logical) tup =
        .error (.runtime "Shape cannot have more than 1 elements that is set to -1!") := by
      unfold resolveReshapeTuple
      rw [if_pos (by omega)]
    simp [_reshapeF, hr, except_bind_error]
  · intro dt s pre post bid n hpos
    have hres := resolveReshapeTuple_wildcard s.prod pre post hpos
    refine ⟨?_, ?_⟩
    · have h2 := _reshapeF_tup_host 63 ⟨dt, .ROW_MAJOR, .host, ⟨s, s⟩, bid⟩ _ _ n hres
        (by simp [is_contiguous]) rfl
      simpa [ttlReshape] using h2
    · intro q hq
      have hP : 0 < (pre ++ post).prod := prod_pos_of_pos _ hpos
      rw [hq, Int.mul_fdiv_cancel_left _ (by omega)]

/-- Claim C2 amended witness: two wildcards raise; one wildcard with the
spec's own example (2,3,4) reshaped to (-1, 6) resolves to (4, 6). -/
theorem c2_amended_witness :
    _reshape ⟨.bfloat16, .ROW_MAJOR, .host, ⟨[1], [1]⟩, 0⟩ (.tup [-1, -1]) 0 =
      .error (.runtime "Shape cannot have more than 1 elements that is set to -1!") ∧
    (_reshape ⟨.bfloat16, .ROW_MAJOR, .host, ⟨[2, 3, 4], [2, 3, 4]⟩, 0⟩
        (.tup ([] ++ -1 :: [6])) 0 =
      .ok (⟨.bfloat16, .ROW_MAJOR, .host,
        ⟨[] ++ Int.fdiv ([2, 3, 4] : List Int).prod (([] ++ [6] : List Int)).prod :: [6],
         [] ++ Int.fdiv ([2, 3, 4] : List Int).prod (([] ++ [6] : List Int)).prod :: [6]⟩,
        0⟩, 0) ∧
     (∀ q : Int, ([2, 3, 4] : List Int).prod = (([] ++ [6] : List Int)).prod * q →
        Int.fdiv ([2, 3, 4] : List Int).prod (([] ++ [6] : List Int)).prod = q)) :=
  ⟨c2_amended.1 ⟨.bfloat16, .ROW_MAJOR, .host, ⟨[1], [1]⟩, 0⟩ [-1, -1] 0 (by decide),
   c2_amended.2 .bfloat16 [2, 3, 4] [] [6] 0 0 (by decide)⟩

/-- Claim C3 counterexample: the claim says the host-round-trip fallback
transfers the result back to the device; but unpadding a tiled DEVICE
tensor of odd unpadded width leaves the result on HOST. -/
theorem c3_counterexample :
    to_layout ⟨.bfloat16, .TILE, .device 0 DRAM_MEMORY_CONFIG,
        ⟨[1, 1, 2, 3], [1, 1, 32, 32]⟩, 0⟩ .ROW_MAJOR 0 =
      .ok (⟨.bfloat16, .ROW_MAJOR, .host, ⟨[1, 1, 2, 3], [1, 1, 2, 3]⟩, 2⟩, 3) := rfl

/-- Claim C3 (amended): on a rank-4 tiled device tensor needing a padding
change, `to_layout` to ROW_MAJOR uses the native untile-with-unpadding
primitive exactly when the unpadded width is even, keeping the result on
the device with its memory config; otherwise it transfers to host and
unpads there, and the result REMAINS on host (it is not transferred back).
Either way the logical shape is preserved and the padding is stripped. -/
theorem c3_amended (dt : DataType) (d : Nat) (mc : MemoryConfig)
    (b1 b2 h w ph pw : Int) (bid n : Nat)
    (hnn : 0 ≤ b1 ∧ 0 ≤ b2 ∧ 0 ≤ h ∧ 0 ≤ w)
    (hpad : [h, w] ≠ [ph, pw]) :
    ∃ bid2 n2,
      to_layout ⟨dt, .TILE, .device d mc, ⟨[b1, b2, h, w], [b1, b2, ph, pw]⟩, bid⟩
          .ROW_MAJOR n =
        .ok (⟨dt, .ROW_MAJOR, if w % 2 = 0 then Storage.device d mc else Storage.host,
              ⟨[b1, b2, h, w], [b1, b2, h, w]⟩, bid2⟩, n2) :=
  to_layout_rm_device_tile4 62 dt d mc b1 b2 h w ph pw bid n hnn hpad

/-- Claim C3 amended witness: an even-width tiled device tensor stays on
its device (with its memory config), an odd-width one ends on host. -/
theorem c3_amended_witness :
    (∃ bid2 n2,
      to_layout ⟨.bfloat16, .TILE, .device 1 L1_MEMORY_CONFIG,
          ⟨[1, 1, 2, 4], [1, 1, 32, 32]⟩, 0⟩ .ROW_MAJOR 0 =
        .ok (⟨.bfloat16, .ROW_MAJOR,
          if (4 : Int) % 2 = 0 then Storage.device 1 L1_MEMORY_CONFIG else Storage.host,
          ⟨[1, 1, 2, 4], [1, 1, 2, 4]⟩, bid2⟩, n2)) ∧
    (∃ bid2 n2,
      to_layout ⟨.bfloat16, .TILE, .device 1 L1_MEMORY_CONFIG,
          ⟨[1, 1, 2, 3], [1, 1, 32, 32]⟩, 0⟩ .ROW_MAJOR 0 =
        .ok (⟨.bfloat16, .ROW_MAJOR,
          if (3 : Int) % 2 = 0 then Storage.device 1 L1_MEMORY_CONFIG else Storage.host,
          ⟨[1, 1, 2, 3], [1, 1, 2, 3]⟩, bid2⟩, n2)) :=
  ⟨c3_amended .bfloat16 1 L1_MEMORY_CONFIG 1 1 2 4 32 32 0 0 (by decide) (by decide),
   c3_amended .bfloat16 1 L1_MEMORY_CONFIG 1 1 2 3 32 32 0 0 (by decide) (by decide)⟩

/-- Claim C4: converting a (rank 2 to 4) trivially padded row-major tensor
to TILE layout yields padded last-two dims that are the smallest multiples
of 32 at least the logical dims, computed as dim + (32 - dim mod 32) mod 32,
with the logical shape unchanged (and the storage location preserved). -/
theorem c4_to_layout_tile_padding (dt : DataType) (st : Storage) (b : List Int)
    (h w : Int) (bid n : Nat) (hb : b.length ≤ 2) :
    ∃ bid2 n2,
      (to_layout ⟨dt, .ROW_MAJOR, st, ⟨b ++ [h, w], b ++ [h, w]⟩, bid⟩ .TILE n =
        .ok (⟨dt, .TILE, st, ⟨b ++ [h, w], b ++ [roundUp32 h, roundUp32 w]⟩, bid2⟩, n2)) ∧
      (32 ∣ roundUp32 h ∧ h ≤ roundUp32 h ∧ ∀ k, 32 ∣ k → h ≤ k → roundUp32 h ≤ k) ∧
      (32 ∣ roundUp32 w ∧ w ≤ roundUp32 w ∧ ∀ k, 32 ∣ k → w ≤ k → roundUp32 w ≤ k) ∧
      roundUp32 h = h + (TILE_SIZE - h % TILE_SIZE) % TILE_SIZE ∧
      roundUp32 w = w + (TILE_SIZE - w % TILE_SIZE) % TILE_SIZE := by
  rcases b with _ | ⟨b1, _ | ⟨b2, _ | ⟨b3, rest⟩⟩⟩
  · obtain ⟨bid2, n2, hmain⟩ := to_layout_tile_rank2 61 dt st h w bid n
    exact ⟨bid2, n2, hmain,
      ⟨roundUp32_dvd h, roundUp32_le h, roundUp32_least h⟩,
      ⟨roundUp32_dvd w, roundUp32_le w, roundUp32_least w⟩, rfl, rfl⟩
  · obtain ⟨bid2, n2, hmain⟩ := to_layout_tile_rank3 61 dt st b1 h w bid n
    exact ⟨bid2, n2, hmain,
      ⟨roundUp32_dvd h, roundUp32_le h, roundUp32_least h⟩,
      ⟨roundUp32_dvd w, roundUp32_le w, roundUp32_least w⟩, rfl, rfl⟩
  · obtain ⟨bid2, n2, hmain⟩ := to_layout_tile_rank4 61 dt st b1 b2 h w bid n
    exact ⟨bid2, n2, hmain,
      ⟨roundUp32_dvd h, roundUp32_le h, roundUp32_least h⟩,
      ⟨roundUp32_dvd w, roundUp32_le w, roundUp32_least w⟩, rfl, rfl⟩
  · simp at hb

/-- Claim C4 witness: the tensor of logical shape (10, 64, 20) converted to
TILE gets padded last-two dims (64, 32). -/
theorem c4_to_layout_tile_padding_witness :
    ∃ bid2 n2,
      (to_layout ⟨.bfloat16, .ROW_MAJOR, .host,
          ⟨[10] ++ [64, 20], [10] ++ [64, 20]⟩, 0⟩ .TILE 0 =
        .ok (⟨.bfloat16, .TILE, .host,
          ⟨[10] ++ [64, 20], [10] ++ [roundUp32 64, roundUp32 20]⟩, bid2⟩, n2)) ∧
      (32 ∣ roundUp32 64 ∧ (64 : Int) ≤ roundUp32 64 ∧
        ∀ k, 32 ∣ k → (64 : Int) ≤ k → roundUp32 64 ≤ k) ∧
      (32 ∣ roundUp32 20 ∧ (20 : Int) ≤ roundUp32 20 ∧
        ∀ k, 32 ∣ k → (20 : Int) ≤ k → roundUp32 20 ≤ k) ∧
      roundUp32 64 = 64 + (TILE_SIZE - 64 % TILE_SIZE) % TILE_SIZE ∧
      roundUp32 20 = 20 + (TILE_SIZE - 20 % TILE_SIZE) % TILE_SIZE :=
  c4_to_layout_tile_padding .bfloat16 .host [10] 64 20 0 0 (by decide)

/-- Claim C5: when the current layout equals the requested layout and the
padding-change decision returns false, `to_layout` returns the input tensor
itself with the allocation counter untouched: no data movement, no new
tensor. -/
theorem c5_to_layout_noop (t : TtTensor) (layout : Layout) (n : Nat)
    (h1 : requires_padding_change layout t.shape = false) (h2 : t.layout = layout) :
    to_layout t layout n = .ok (t, n) :=
  to_layoutF_noop 63 t layout n h1 h2

/-- Claim C5 witness. -/
theorem c5_to_layout_noop_witness :
    to_layout ⟨.bfloat16, .TILE, .host, ⟨[1, 1, 32, 32], [1, 1, 32, 32]⟩, 5⟩ .TILE 7 =
      .ok (⟨.bfloat16, .TILE, .host, ⟨[1, 1, 32, 32], [1, 1, 32, 32]⟩, 5⟩, 7) :=
  c5_to_layout_noop ⟨.bfloat16, .TILE, .host, ⟨[1, 1, 32, 32], [1, 1, 32, 32]⟩, 5⟩ .TILE 7
    (by decide) rfl

/-- Claim C6: `from_device` on a tensor already located on host raises a
StorageError (the spec-modelled `cpu()` primitive) rather than silently
returning the tensor. -/
theorem c6_from_device_host (dt : DataType) (l : Layout) (sh : Shape) (bid n : Nat) :
    from_device ⟨dt, l, .host, sh, bid⟩ n =
      .error (.storageErr "Tensor is already on host!") := rfl

/-- Claim C7: slicing a row-major device tensor returns a tensor on the same
device with the sliced logical shape and the input's dtype, in a newly
allocated buffer disjoint from the source buffer (whose id is untouched). -/
theorem c7_getitem_device (dt : DataType) (d : Nat) (mc : MemoryConfig) (s : List Int)
    (slices : List (Int × Int)) (bid n : Nat) (hbuf : bid < n) :
    getitem ⟨dt, .ROW_MAJOR, .device d mc, ⟨s, s⟩, bid⟩ slices n =
      .ok (⟨dt, .ROW_MAJOR, .device d DRAM_MEMORY_CONFIG,
        ⟨sliceShape slices s, sliceShape slices s⟩, n + 1 + 1⟩, n + 1 + 1 + 1) ∧
    n + 1 + 1 ≠ bid :=
  ⟨getitem_device_trace 62 dt d mc s slices bid n, by omega⟩

/-- Claim C7 witness: slicing a (10, 64, 32) row-major device tensor with
the row-range 0..5 yields shape (5, 64, 32), same device, same dtype, in a
fresh buffer. -/
theorem c7_getitem_device_witness :
    getitem ⟨.bfloat16, .ROW_MAJOR, .device 2 L1_MEMORY_CONFIG,
        ⟨[10, 64, 32], [10, 64, 32]⟩, 0⟩ [(0, 5)] 1 =
      .ok (⟨.bfloat16, .ROW_MAJOR, .device 2 DRAM_MEMORY_CONFIG,
        ⟨sliceShape [(0, 5)] [10, 64, 32], sliceShape [(0, 5)] [10, 64, 32]⟩,
        1 + 1 + 1⟩, 1 + 1 + 1 + 1) ∧
    1 + 1 + 1 ≠ 0 :=
  c7_getitem_device .bfloat16 2 L1_MEMORY_CONFIG [10, 64, 32] [(0, 5)] 0 1 (by decide)

/-- Claim C8: slicing a tensor that is not in row-major layout (i.e. a tiled
tensor) raises the layout error immediately, before any transfer. -/
theorem c8_getitem_tiled (dt : DataType) (st : Storage) (sh : Shape)
    (slices : List (Int × Int)) (bid n : Nat) :
    getitem ⟨dt, .TILE, st, sh, bid⟩ slices n =
      .error (.runtime "Tensor must be in ROW_MAJOR layout to use slicing!") := by
  show getitemF FUEL _ _ _ = _
  unfold getitemF
  rw [if_pos (by simp)]

/-- Claim C9: the result of slicing a row-major device tensor is re-placed
with the default DRAM interleaved memory config regardless of the input's
memory config: an input resident in L1 yields a result resident in DRAM. -/
theorem c9_getitem_memconfig (dt : DataType) (d : Nat) (s : List Int)
    (slices : List (Int × Int)) (bid n : Nat) :
    getitem ⟨dt, .ROW_MAJOR, .device d L1_MEMORY_CONFIG, ⟨s, s⟩, bid⟩ slices n =
      .ok (⟨dt, .ROW_MAJOR, .device d DRAM_MEMORY_CONFIG,
        ⟨sliceShape slices s, sliceShape slices s⟩, n + 1 + 1⟩, n + 1 + 1 + 1) :=
  getitem_device_trace 62 dt d L1_MEMORY_CONFIG s slices bid n

/-- Claim C10: `from_torch` with a memory_config but no device raises the
error before any conversion, layout change or transfer happens (the
allocation counter never advances). -/
theorem c10_from_torch_memcfg (tt : TorchTensor) (dtype : Option DataType)
    (layout : Option Layout) (mc : MemoryConfig) (n : Nat) :
    from_torch tt dtype layout none (some mc) n =
      .error (.runtime "device must be specified when memory_config is specified") := by
  show from_torchF (63 + 1) tt dtype layout none (some mc) n = _
  unfold from_torchF
  rw [if_pos (by simp)]


end Ttnn
